import Mathlib
/-!
Verification development for the Base rewards estimator.

The repository's scoring core lives in two TypeScript files:
  * a scoring-utils module exporting computeScores and mapScoreToRewards,
  * services/geminiService.ts with deriveStats, getOnChainData and the
    orchestrator getRewardEstimate.

JavaScript numbers are modelled by real numbers; Math.round is Mathlib's
round (round-half-up, matching Math.round and the tie-breaking of
Number.toFixed for non-negative arguments), Math.floor is Int.floor,
Math.ceil is Int.ceil, Math.log10 is Real.logb 10, Math.log is Real.log
and Math.exp is Real.exp.  The two external collaborators (the RPC data
fetch and the narrative generation) are modelled by explicit outcome
parameters, so the orchestrator becomes a pure function of the outcomes.
-/
noncomputable section
open Real

/-- Model of parseFloat(x.toFixed(2)): round to 2 decimal places. -/
def round2 (x : ℝ) : ℝ := (round (x * 100) : ℝ) / 100

/-- Model of parseFloat(x.toFixed(3)): round to 3 decimal places. -/
def round3 (x : ℝ) : ℝ := (round (x * 1000) : ℝ) / 1000

/-- Model of parseFloat(x.toFixed(4)): round to 4 decimal places
(used only for the displayed balance in the orchestrator's stats). -/
def round4 (x : ℝ) : ℝ := (round (x * 10000) : ℝ) / 10000

/-- ScoreBreakdown interface from types.ts. -/
structure ScoreBreakdown where
  txScore : ℝ
  activeDaysScore : ℝ
  protocolScore : ℝ
  volumeScore : ℝ
  recencyScore : ℝ
  finalScore : ℝ

/-- computeScores from the scoring-utils module.  The five sub-scores are
computed at full precision, the weighted sum is taken over those
full-precision values, and every returned field is then rounded for
display (sub-scores to 2 decimals, finalScore to 3 decimals).
recencyDays defaults to 2 when not supplied. -/
def computeScores (txCount activeDays protocols volumeUSD : ℝ)
    (recencyDays : ℝ := 2) : ScoreBreakdown :=
  -- 1. Transaction Score: Math.min(Math.log10(txCount + 1) / 3, 1)
  let txScore := min (Real.logb 10 (txCount + 1) / 3) 1
  -- 2. Active Days Score: Math.min(activeDays / 365, 1)
  let activeDaysScore := min (activeDays / 365) 1
  -- 3. Protocol Score: Math.min(protocols / 8, 1)
  let protocolScore := min (protocols / 8) 1
  -- 4. Volume Score: Math.min(Math.log10(volumeUSD + 1) / 5.8, 1)
  let volumeScore := min (Real.logb 10 (volumeUSD + 1) / 5.8) 1
  -- 5. Recency Score: recencyDays <= 7 ? 1 : Math.max(0, 1 - (recencyDays - 7) / 83)
  let recencyScore := if recencyDays ≤ 7 then 1 else max 0 (1 - (recencyDays - 7) / 83)
  -- Weighted Sum
  let finalScore :=
    txScore * 0.35 +
    activeDaysScore * 0.25 +
    protocolScore * 0.20 +
    volumeScore * 0.15 +
    recencyScore * 0.05
  { txScore := round2 txScore
    activeDaysScore := round2 activeDaysScore
    protocolScore := round2 protocolScore
    volumeScore := round2 volumeScore
    recencyScore := round2 recencyScore
    finalScore := round3 finalScore }

/-- POOL_SIZE constant: 1 Billion simulation pool. -/
def POOL_SIZE : ℝ := 1000000000

/-- MAPPING_POINTS: the fixed (score, pct) control points of the reward
curve, ordered by ascending score. -/
def MAPPING_POINTS : List (ℝ × ℝ) :=
  [(0.00, 0.0000000),
   (0.25, 0.0000002),
   (0.50, 0.0000015),
   (0.75, 0.0000045),
   (1.00, 0.0000120)]

/-- The loop body of mapScoreToRewards: walk the consecutive pairs
(p1, p2) of the control-point list in order; on the first pair with
p1.score <= score <= p2.score return the interpolated pct
p1.pct + t * (p2.pct - p1.pct) with t = (score - p1.score) / (p2.score - p1.score);
none when no pair matches. -/
def interpOn : List (ℝ × ℝ) → ℝ → Option ℝ
  | p1 :: p2 :: rest, score =>
      if p1.1 ≤ score ∧ score ≤ p2.1 then
        some (p1.2 + (score - p1.1) / (p2.1 - p1.1) * (p2.2 - p1.2))
      else interpOn (p2 :: rest) score
  | _, _ => none

/-- mapScoreToRewards from the scoring-utils module: 0 for score <= 0,
otherwise piecewise-linear interpolation over MAPPING_POINTS scaled by
POOL_SIZE and rounded; when no pair matches (score beyond the last
control point) fall back to the last control point's pct. -/
def mapScoreToRewards (score : ℝ) : ℤ :=
  if score ≤ 0 then 0
  else
    match interpOn MAPPING_POINTS score with
    | some pct => round (POOL_SIZE * pct)
    | none => round (POOL_SIZE * (MAPPING_POINTS.getLastD (0, 0)).2)

/-- The real-valued reward curve underlying mapScoreToRewards: the same
piecewise-affine function before the final rounding step. -/
def rewardCurveReal (s : ℝ) : ℝ :=
  if s ≤ 0 then 0
  else if s ≤ 0.25 then 800 * s
  else if s ≤ 0.5 then 5200 * s - 1100
  else if s ≤ 0.75 then 12000 * s - 4500
  else if s ≤ 1 then 30000 * s - 18000
  else 12000

/-- Noise filtering in deriveStats: Math.floor(rawTxCount * 0.8). -/
def meaningfulTxCount (rawTxCount : ℝ) : ℤ := ⌊rawTxCount * 0.8⌋

/-- The record returned by deriveStats in services/geminiService.ts.
Math.round / Math.floor / Math.ceil / Math.min / Math.max produce
integer values, so the four numeric fields are integers. -/
structure DerivedStats where
  activeDays : ℤ
  volumeUSD : ℤ
  volumeMethod : String
  protocols : ℤ
  recencyDays : ℤ

/-- deriveStats from services/geminiService.ts.  The source mutates
baseOpValue, wealthMultiplier and tierLabel through a sequence of if
statements; each such sequence is compiled here into the equivalent
nested if-expression (the later assignment wins, so the later condition
is tested first). -/
def deriveStats (rawTxCount balance : ℝ) : DerivedStats :=
  -- 2. Active Days: round(MAX_BASE_DAYS * (1 - exp(-rawTxCount * SATURATION_K)))
  let estimatedActiveDays : ℤ :=
    if 0 < rawTxCount then round ((560 : ℝ) * (1 - Real.exp (-rawTxCount * 0.0012))) else 0
  -- 3. Volume: baseOpValue starts at 15 and becomes 41.5 when rawTxCount >= 50
  let baseOpValue : ℝ := if 50 ≤ rawTxCount then 41.5 else 15
  -- wealthMultiplier starts at 1, becomes 2.5 when balance > 0.5,
  -- then 12 when balance > 5.0 (the later check supersedes)
  let wealthMultiplier : ℝ := if 5.0 < balance then 12 else if 0.5 < balance then 2.5 else 1
  -- tierLabel: set with baseOpValue, overwritten by each wealth tier that fires
  let tierLabel : String :=
    if 5.0 < balance then "Whale (~$500/tx)"
    else if 0.5 < balance then "Active (~$100/tx)"
    else if 50 ≤ rawTxCount then "Regular (~$42/tx)"
    else "Casual (~$15/op)"
  let estimatedVolumeUSD : ℝ := rawTxCount * baseOpValue * wealthMultiplier
  -- 4. Protocols: 0 when no meaningful txs, else min(ceil(log(m+1) * 2.1), 30)
  let estimatedProtocols : ℤ :=
    if meaningfulTxCount rawTxCount = 0 then 0
    else min ⌈Real.log ((meaningfulTxCount rawTxCount : ℝ) + 1) * 2.1⌉ 30
  -- 5. Recency: 90 when no meaningful txs, else max(1, floor(30 / (log(m+1) + 0.1)))
  let recencyDays : ℤ :=
    if meaningfulTxCount rawTxCount = 0 then 90
    else max 1 ⌊(30 : ℝ) / (Real.log ((meaningfulTxCount rawTxCount : ℝ) + 1) + 0.1)⌋
  { activeDays := estimatedActiveDays
    volumeUSD := round estimatedVolumeUSD
    volumeMethod := tierLabel
    protocols := estimatedProtocols
    recencyDays := recencyDays }

/-- RawActivity: what a successful on-chain fetch yields (balance in
native units, transaction count). -/
structure RawActivity where
  balance : ℝ
  txCount : ℝ

/-- The record returned by getOnChainData. -/
structure OnChainData where
  balance : ℝ
  txCount : ℝ
  error : Option String

/-- getOnChainData from services/geminiService.ts: the RPC fetch is an
external collaborator, modelled by its outcome (some RawActivity on
success, none when the fetch throws).  On failure the catch block
returns balance 0, txCount 0 and an error message. -/
def getOnChainData (fetchOutcome : Option RawActivity) : OnChainData :=
  match fetchOutcome with
  | some r => { balance := r.balance, txCount := r.txCount, error := none }
  | none => { balance := 0, txCount := 0, error := some "Could not fetch on-chain data" }

/-- Outcome of the narrative collaborator call in getRewardEstimate:
ok carries a parsed {explanation, suggestions} response; emptyText is
the case where response.text is absent (the source substitutes inline
fallback text); threw is the case where generateContent or JSON.parse
throws (the catch block substitutes its own fallback text). -/
inductive NarrativeOutcome where
  | ok (explanation : String) (suggestions : List String)
  | emptyText
  | threw

/-- The stats sub-object of EstimationResult; balance is displayed via
toFixed(4), modelled by round4. -/
structure WalletStats where
  balance : ℝ
  txCount : ℝ
  activeDays : ℤ
  volumeUSD : ℤ
  volumeMethod : String
  protocols : ℤ

/-- EstimationResult interface from types.ts. -/
structure EstimationResult where
  activityScore : ℝ
  estimatedRewards : ℤ
  stats : WalletStats
  scoreBreakdown : ScoreBreakdown
  explanation : String
  suggestions : List String

/-- getRewardEstimate from services/geminiService.ts: fetch on-chain
data (substituting zeros on failure inside getOnChainData), derive
stats, compute scores, map the final score to rewards, then attach the
narrative, falling back to fixed strings when the narrative collaborator
returns no text or throws.  The two external calls are modelled by the
two outcome parameters. -/
def getRewardEstimate (fetchOutcome : Option RawActivity)
    (narrativeOutcome : NarrativeOutcome) : EstimationResult :=
  let realData := getOnChainData fetchOutcome
  let derivedStats := deriveStats realData.txCount realData.balance
  let scores := computeScores realData.txCount (derivedStats.activeDays : ℝ)
    (derivedStats.protocols : ℝ) (derivedStats.volumeUSD : ℝ) (derivedStats.recencyDays : ℝ)
  let estimatedRewards := mapScoreToRewards scores.finalScore
  let stats : WalletStats :=
    { balance := round4 realData.balance
      txCount := realData.txCount
      activeDays := derivedStats.activeDays
      volumeUSD := derivedStats.volumeUSD
      volumeMethod := derivedStats.volumeMethod
      protocols := derivedStats.protocols }
  match narrativeOutcome with
  | .ok e s =>
      { activityScore := scores.finalScore
        estimatedRewards := estimatedRewards
        stats := stats
        scoreBreakdown := scores
        explanation := e
        suggestions := s }
  | .emptyText =>
      { activityScore := scores.finalScore
        estimatedRewards := estimatedRewards
        stats := stats
        scoreBreakdown := scores
        explanation := "Analysis complete based on your on-chain activity pattern."
        suggestions := ["Maintain weekly activity", "Try Aerodrome or Moonwell",
          "Increase transaction volume"] }
  | .threw =>
      { activityScore := scores.finalScore
        estimatedRewards := estimatedRewards
        stats := stats
        scoreBreakdown := scores
        explanation := "We calculated your score based on your wallet activity pattern."
        suggestions := ["Interact with more protocols", "Increase transaction volume",
          "Maintain monthly activity"] }

/-- Spec formula: txScore = min(log10(txCount + 1) / 3, 1). -/
def specTxScore (txCount : ℝ) : ℝ := min (Real.logb 10 (txCount + 1) / 3) 1

/-- Spec formula: activeDaysScore = min(activeDays / 365, 1). -/
def specActiveDaysScore (activeDays : ℝ) : ℝ := min (activeDays / 365) 1

/-- Spec formula: protocolScore = min(protocols / 8, 1). -/
def specProtocolScore (protocols : ℝ) : ℝ := min (protocols / 8) 1

/-- Spec formula: volumeScore = min(log10(volumeUSD + 1) / 5.8, 1). -/
def specVolumeScore (volumeUSD : ℝ) : ℝ := min (Real.logb 10 (volumeUSD + 1) / 5.8) 1

/-- Spec formula: recencyScore = 1 when recencyDays <= 7, else
max(0, 1 - (recencyDays - 7) / 83). -/
def specRecencyScore (recencyDays : ℝ) : ℝ :=
  if recencyDays ≤ 7 then 1 else max 0 (1 - (recencyDays - 7) / 83)

/-- Spec formula: the weighted final score over unrounded sub-scores,
weights 0.35 / 0.25 / 0.20 / 0.15 / 0.05. -/
def specFinalScore (t a p v r : ℝ) : ℝ :=
  0.35 * specTxScore t + 0.25 * specActiveDaysScore a + 0.20 * specProtocolScore p +
    0.15 * specVolumeScore v + 0.05 * specRecencyScore r

/-- round is monotone. -/
lemma round_mono_le {x y : ℝ} (h : x ≤ y) : round x ≤ round y := by
  rw [round_eq, round_eq]
  exact Int.floor_mono (by linarith)

/-- round of a non-negative real is non-negative. -/
lemma round_nonneg_of {x : ℝ} (h : 0 ≤ x) : 0 ≤ round x := by
  rw [round_eq]
  exact Int.floor_nonneg.mpr (by linarith)

/-- Compute round from two-sided rational bounds. -/
lemma round_eq_int {x : ℝ} (z : ℤ) (h₁ : (z : ℝ) ≤ x + 1 / 2) (h₂ : x + 1 / 2 < z + 1) :
    round x = z := by
  rw [round_eq]
  exact Int.floor_eq_iff.mpr ⟨h₁, h₂⟩

/-- Closed-form description of mapScoreToRewards: on each segment the
scaled interpolation is an affine function of the score. -/
lemma mapScoreToRewards_eq (s : ℝ) :
    mapScoreToRewards s =
      if s ≤ 0 then 0
      else if s ≤ 0.25 then round (800 * s)
      else if s ≤ 0.5 then round (5200 * s - 1100)
      else if s ≤ 0.75 then round (12000 * s - 4500)
      else if s ≤ 1 then round (30000 * s - 18000)
      else 12000 := by
  rw [mapScoreToRewards]
  simp only [MAPPING_POINTS, interpOn, List.getLastD]
  by_cases h0 : s ≤ 0
  · rw [if_pos h0, if_pos h0]
  rw [if_neg h0, if_neg h0]
  by_cases h1 : s ≤ 0.25
  · rw [if_pos ⟨by norm_num; linarith, by norm_num; linarith⟩, if_pos h1]
    show round (POOL_SIZE *
        (0.0000000 + (s - 0.00) / (0.25 - 0.00) * (0.0000002 - 0.0000000))) =
      round (800 * s)
    congr 1
    norm_num [POOL_SIZE]
    ring
  rw [if_neg (by rintro ⟨-, h⟩; norm_num at h; linarith), if_neg h1]
  by_cases h2 : s ≤ 0.5
  · rw [if_pos ⟨by norm_num; linarith, by norm_num; linarith⟩, if_pos h2]
    show round (POOL_SIZE *
        (0.0000002 + (s - 0.25) / (0.50 - 0.25) * (0.0000015 - 0.0000002))) =
      round (5200 * s - 1100)
    congr 1
    norm_num [POOL_SIZE]
    ring
  rw [if_neg (by rintro ⟨-, h⟩; norm_num at h; linarith), if_neg h2]
  by_cases h3 : s ≤ 0.75
  · rw [if_pos ⟨by norm_num; linarith, by norm_num; linarith⟩, if_pos h3]
    show round (POOL_SIZE *
        (0.0000015 + (s - 0.50) / (0.75 - 0.50) * (0.0000045 - 0.0000015))) =
      round (12000 * s - 4500)
    congr 1
    norm_num [POOL_SIZE]
    ring
  rw [if_neg (by rintro ⟨-, h⟩; norm_num at h; linarith), if_neg h3]
  by_cases h4 : s ≤ 1
  · rw [if_pos ⟨by norm_num; linarith, by norm_num; linarith⟩, if_pos h4]
    show round (POOL_SIZE *
        (0.0000045 + (s - 0.75) / (1.00 - 0.75) * (0.0000120 - 0.0000045))) =
      round (30000 * s - 18000)
    congr 1
    norm_num [POOL_SIZE]
    ring
  rw [if_neg (by rintro ⟨-, h⟩; norm_num at h; linarith), if_neg h4]
  show round (POOL_SIZE * (0.0000120 : ℝ)) = 12000
  rw [POOL_SIZE]
  exact round_eq_int 12000 (by norm_num) (by norm_num)

/-- mapScoreToRewards is the rounding of the real reward curve. -/
lemma mapScoreToRewards_eq_round_curve (s : ℝ) :
    mapScoreToRewards s = round (rewardCurveReal s) := by
  rw [mapScoreToRewards_eq, rewardCurveReal]
  split_ifs
  · exact round_zero.symm
  · rfl
  · rfl
  · rfl
  · rfl
  · exact (round_eq_int 12000 (by norm_num) (by norm_num)).symm

/-- The real reward curve is monotone on all of ℝ. -/
lemma rewardCurveReal_mono {a b : ℝ} (h : a ≤ b) :
    rewardCurveReal a ≤ rewardCurveReal b := by
  rw [rewardCurveReal, rewardCurveReal]
  split_ifs <;> linarith

/-- The real reward curve is non-negative. -/
lemma rewardCurveReal_nonneg (s : ℝ) : 0 ≤ rewardCurveReal s := by
  rw [rewardCurveReal]
  split_ifs <;> linarith

/-- Field equation: the volumeUSD returned by deriveStats. -/
lemma deriveStats_volumeUSD (t b : ℝ) :
    (deriveStats t b).volumeUSD =
      round (t * (if 50 ≤ t then (41.5 : ℝ) else 15) *
        (if 5.0 < b then (12 : ℝ) else if 0.5 < b then 2.5 else 1)) := rfl

/-- Field equation: the volumeMethod label returned by deriveStats. -/
lemma deriveStats_volumeMethod (t b : ℝ) :
    (deriveStats t b).volumeMethod =
      (if 5.0 < b then "Whale (~$500/tx)"
       else if 0.5 < b then "Active (~$100/tx)"
       else if 50 ≤ t then "Regular (~$42/tx)"
       else "Casual (~$15/op)") := rfl

/-- Field equation: the activeDays returned by deriveStats. -/
lemma deriveStats_activeDays (t b : ℝ) :
    (deriveStats t b).activeDays =
      (if 0 < t then round ((560 : ℝ) * (1 - Real.exp (-t * 0.0012))) else 0) := rfl

/-- Field equation: the protocols returned by deriveStats. -/
lemma deriveStats_protocols (t b : ℝ) :
    (deriveStats t b).protocols =
      (if meaningfulTxCount t = 0 then 0
       else min ⌈Real.log ((meaningfulTxCount t : ℝ) + 1) * 2.1⌉ 30) := rfl

/-- Field equation: the recencyDays returned by deriveStats. -/
lemma deriveStats_recencyDays (t b : ℝ) :
    (deriveStats t b).recencyDays =
      (if meaningfulTxCount t = 0 then 90
       else max 1 ⌊(30 : ℝ) / (Real.log ((meaningfulTxCount t : ℝ) + 1) + 0.1)⌋) := rfl

/-- The real active-days curve is non-negative for non-negative inputs. -/
lemma activeDaysReal_nonneg {x : ℝ} (hx : 0 ≤ x) :
    0 ≤ (560 : ℝ) * (1 - Real.exp (-x * 0.0012)) := by
  have h1 : Real.exp (-x * 0.0012) ≤ 1 := by
    rw [Real.exp_le_one_iff]
    nlinarith
  nlinarith

/-- The real active-days curve never reaches 560. -/
lemma activeDaysReal_le (x : ℝ) : (560 : ℝ) * (1 - Real.exp (-x * 0.0012)) ≤ 560 := by
  have := Real.exp_pos (-x * 0.0012)
  nlinarith

/-- The real active-days curve is monotone. -/
lemma activeDaysReal_mono {x y : ℝ} (h : x ≤ y) :
    (560 : ℝ) * (1 - Real.exp (-x * 0.0012)) ≤ (560 : ℝ) * (1 - Real.exp (-y * 0.0012)) := by
  have := Real.exp_le_exp.mpr (show -y * 0.0012 ≤ -x * 0.0012 by linarith)
  nlinarith

/-- Numeric bounds for exp(0.72) via the degree-6 Taylor partial sum. -/
lemma exp_072_bounds : (2.0539 : ℝ) ≤ Real.exp 0.72 ∧ Real.exp 0.72 ≤ (2.0545 : ℝ) := by
  have h := Real.exp_bound (x := 0.72) (by rw [abs_of_nonneg] <;> norm_num) (n := 6) (by norm_num)
  have hs : ∑ m ∈ Finset.range 6, (0.72 : ℝ) ^ m / m.factorial = 2.05421787136 := by
    simp [Finset.sum_range_succ, Nat.factorial]
    norm_num
  rw [hs] at h
  rw [abs_le] at h
  have hb : |(0.72 : ℝ)| ^ 6 * ((6 : ℕ).succ / ((6 : ℕ).factorial * 6)) ≤ 0.00022575 := by
    rw [abs_of_nonneg (by norm_num)]
    norm_num [Nat.factorial]
  constructor <;> nlinarith [h.1, h.2]

/-- Numeric bounds for exp(1.44) = exp(0.72)^2. -/
lemma exp_144_bounds : (4.2185 : ℝ) ≤ Real.exp 1.44 ∧ Real.exp 1.44 ≤ (4.2210 : ℝ) := by
  have h72 := exp_072_bounds
  have hadd : Real.exp (1.44 : ℝ) = Real.exp 0.72 * Real.exp 0.72 := by
    rw [← Real.exp_add]
    norm_num
  rw [hadd]
  constructor <;> nlinarith [h72.1, h72.2, Real.exp_pos (0.72 : ℝ)]

/-- The active-days curve at 1200 raw transactions rounds to 427
(560 * (1 - e^(-1.44)) is about 427.32). -/
lemma round_activedays_1200 : round ((560 : ℝ) * (1 - Real.exp (-1200 * 0.0012))) = 427 := by
  have h := exp_144_bounds
  have hneg : Real.exp ((-1200 : ℝ) * 0.0012) = (Real.exp 1.44)⁻¹ := by
    rw [show ((-1200 : ℝ) * 0.0012) = -(1.44 : ℝ) by norm_num, Real.exp_neg]
  have hE := Real.exp_pos (1.44 : ℝ)
  have hz1 : (Real.exp 1.44)⁻¹ ≤ 1 / 4.2185 := by
    rw [div_eq_mul_inv, one_mul]
    exact inv_anti₀ (by norm_num) h.1
  have hz2 : 1 / 4.2210 ≤ (Real.exp 1.44)⁻¹ := by
    rw [div_eq_mul_inv, one_mul]
    exact inv_anti₀ (by positivity) h.2
  apply round_eq_int
  · rw [hneg]; nlinarith
  · rw [hneg]; nlinarith

/-- computeScores agrees field-by-field with the spec formulas: each
sub-score is the 2-decimal rounding of its spec formula, and finalScore
is the 3-decimal rounding of the weighted sum of the unrounded
sub-scores. -/
lemma computeScores_eq_spec (t a p v r : ℝ) :
    computeScores t a p v r =
      { txScore := round2 (specTxScore t)
        activeDaysScore := round2 (specActiveDaysScore a)
        protocolScore := round2 (specProtocolScore p)
        volumeScore := round2 (specVolumeScore v)
        recencyScore := round2 (specRecencyScore r)
        finalScore := round3 (specFinalScore t a p v r) } := by
  show ScoreBreakdown.mk _ _ _ _ _ _ = _
  simp only [computeScores, ScoreBreakdown.mk.injEq]
  refine ⟨rfl, rfl, rfl, rfl, rfl, ?_⟩
  unfold round3
  congr 2
  unfold specFinalScore specTxScore specActiveDaysScore specProtocolScore
    specVolumeScore specRecencyScore
  ring

/-- Bounds for the recency spec score: always within [0, 1]. -/
lemma specRecencyScore_mem (r : ℝ) : 0 ≤ specRecencyScore r ∧ specRecencyScore r ≤ 1 := by
  unfold specRecencyScore
  split_ifs with h
  · norm_num
  · refine ⟨le_max_left 0 _, max_le (by norm_num) (by push_neg at h; linarith)⟩

/-- Bounds for the tx spec score under non-negative input. -/
lemma specTxScore_mem {t : ℝ} (ht : 0 ≤ t) : 0 ≤ specTxScore t ∧ specTxScore t ≤ 1 := by
  unfold specTxScore
  refine ⟨le_min ?_ (by norm_num), min_le_right _ _⟩
  have : 0 ≤ Real.logb 10 (t + 1) := Real.logb_nonneg (by norm_num) (by linarith)
  exact div_nonneg this (by norm_num)

/-- Bounds for the active-days spec score under non-negative input. -/
lemma specActiveDaysScore_mem {a : ℝ} (ha : 0 ≤ a) :
    0 ≤ specActiveDaysScore a ∧ specActiveDaysScore a ≤ 1 := by
  unfold specActiveDaysScore
  exact ⟨le_min (by positivity) (by norm_num), min_le_right _ _⟩

/-- Bounds for the protocol spec score under non-negative input. -/
lemma specProtocolScore_mem {p : ℝ} (hp : 0 ≤ p) :
    0 ≤ specProtocolScore p ∧ specProtocolScore p ≤ 1 := by
  unfold specProtocolScore
  exact ⟨le_min (by positivity) (by norm_num), min_le_right _ _⟩

/-- Bounds for the volume spec score under non-negative input. -/
lemma specVolumeScore_mem {v : ℝ} (hv : 0 ≤ v) :
    0 ≤ specVolumeScore v ∧ specVolumeScore v ≤ 1 := by
  unfold specVolumeScore
  refine ⟨le_min ?_ (by norm_num), min_le_right _ _⟩
  have : 0 ≤ Real.logb 10 (v + 1) := Real.logb_nonneg (by norm_num) (by linarith)
  exact div_nonneg this (by norm_num)

/-- round3 maps [0, 1] into [0, 1]. -/
lemma round3_mem {x : ℝ} (h0 : 0 ≤ x) (h1 : x ≤ 1) : 0 ≤ round3 x ∧ round3 x ≤ 1 := by
  unfold round3
  constructor
  · have : (0 : ℤ) ≤ round (x * 1000) := round_nonneg_of (by linarith)
    have : (0 : ℝ) ≤ (round (x * 1000) : ℝ) := by exact_mod_cast this
    linarith
  · have hmono := round_mono_le (show x * 1000 ≤ (1000 : ℝ) by linarith)
    have h1000v : round ((1000 : ℝ)) = 1000 := round_eq_int 1000 (by norm_num) (by norm_num)
    rw [h1000v] at hmono
    have : ((round (x * 1000) : ℤ) : ℝ) ≤ (1000 : ℝ) := by exact_mod_cast hmono
    linarith

/-- C1: for non-negative integer txCount, non-negative activeDays,
protocols and volumeUSD and positive recencyDays (defaulting to 2 when
not supplied), computeScores returns the ScoreBreakdown whose sub-scores
are the spec formulas, the weighted final score is computed from the
unrounded sub-scores, and each returned field is rounded independently
(sub-scores to 2 decimals, finalScore to 3 decimals). -/
theorem computeScores_matches_spec (txCount : ℕ)
    (activeDays protocols volumeUSD recencyDays : ℝ)
    (ha : 0 ≤ activeDays) (hp : 0 ≤ protocols) (hv : 0 ≤ volumeUSD)
    (hr : 0 < recencyDays) :
    computeScores (txCount : ℝ) activeDays protocols volumeUSD recencyDays =
      { txScore := round2 (specTxScore (txCount : ℝ))
        activeDaysScore := round2 (specActiveDaysScore activeDays)
        protocolScore := round2 (specProtocolScore protocols)
        volumeScore := round2 (specVolumeScore volumeUSD)
        recencyScore := round2 (specRecencyScore recencyDays)
        finalScore := round3 (specFinalScore (txCount : ℝ) activeDays protocols
          volumeUSD recencyDays) } ∧
    computeScores (txCount : ℝ) activeDays protocols volumeUSD =
      computeScores (txCount : ℝ) activeDays protocols volumeUSD 2 :=
  ⟨computeScores_eq_spec _ _ _ _ _, rfl⟩

/-- Witness for C1: the spec correspondence evaluated at
txCount 0, activeDays 0, protocols 0, volumeUSD 0, recencyDays 90. -/
theorem computeScores_matches_spec_witness :
    (0 : ℝ) ≤ 0 ∧ (0 : ℝ) < 90 ∧
      computeScores ((0 : ℕ) : ℝ) 0 0 0 90 =
        { txScore := round2 (specTxScore ((0 : ℕ) : ℝ))
          activeDaysScore := round2 (specActiveDaysScore 0)
          protocolScore := round2 (specProtocolScore 0)
          volumeScore := round2 (specVolumeScore 0)
          recencyScore := round2 (specRecencyScore 90)
          finalScore := round3 (specFinalScore ((0 : ℕ) : ℝ) 0 0 0 90) } :=
  ⟨le_refl 0, by norm_num,
    (computeScores_matches_spec 0 0 0 0 90 le_rfl le_rfl le_rfl (by norm_num)).1⟩

/-- C4 counterexample: at txCount 0, activeDays 1, protocols 0,
volumeUSD 0, recencyDays 90, the returned finalScore is 0.001 while the
weighted sum of the returned (rounded) fields is 0, so the invariant
fails over the returned fields; and at activeDays -3650000 the returned
finalScore is -2500, outside [0, 1]. -/
theorem scoreBreakdown_invariant_counterexample :
    ¬ ((computeScores 0 1 0 0 90).finalScore =
        0.35 * (computeScores 0 1 0 0 90).txScore +
        0.25 * (computeScores 0 1 0 0 90).activeDaysScore +
        0.20 * (computeScores 0 1 0 0 90).protocolScore +
        0.15 * (computeScores 0 1 0 0 90).volumeScore +
        0.05 * (computeScores 0 1 0 0 90).recencyScore) ∧
    (computeScores 0 (-3650000) 0 0 90).finalScore < 0 := by
  have hc : computeScores 0 1 0 0 90 =
      { txScore := 0, activeDaysScore := 0, protocolScore := 0, volumeScore := 0,
        recencyScore := 0, finalScore := 1 / 1000 } := by
    unfold computeScores round2 round3
    norm_num [Real.logb_one]
    rw [show round ((50 : ℝ) / 73) = 1 from round_eq_int 1 (by norm_num) (by norm_num)]
    norm_num
  have hn : computeScores 0 (-3650000) 0 0 90 =
      { txScore := 0, activeDaysScore := -10000, protocolScore := 0, volumeScore := 0,
        recencyScore := 0, finalScore := -2500 } := by
    unfold computeScores round2 round3
    norm_num [Real.logb_one]
    constructor
    · rw [show round ((-1000000 : ℝ)) = -1000000 from
        round_eq_int (-1000000) (by norm_num) (by norm_num)]
      norm_num
    · rw [show round ((-2500000 : ℝ)) = -2500000 from
        round_eq_int (-2500000) (by norm_num) (by norm_num)]
      norm_num
  rw [hc, hn]
  norm_num

/-- C4 (amended): the returned finalScore equals the 3-decimal rounding
of the weighted sum of the unrounded sub-scores (not of the returned
rounded fields), and for non-negative inputs it lies in [0, 1]. -/
theorem scoreBreakdown_invariant_amended (t a p v r : ℝ)
    (ht : 0 ≤ t) (ha : 0 ≤ a) (hp : 0 ≤ p) (hv : 0 ≤ v) :
    (computeScores t a p v r).finalScore =
      round3 (0.35 * specTxScore t + 0.25 * specActiveDaysScore a +
        0.20 * specProtocolScore p + 0.15 * specVolumeScore v +
        0.05 * specRecencyScore r) ∧
    0 ≤ (computeScores t a p v r).finalScore ∧
    (computeScores t a p v r).finalScore ≤ 1 := by
  have he : (computeScores t a p v r).finalScore = round3 (specFinalScore t a p v r) := by
    rw [computeScores_eq_spec]
  have htx := specTxScore_mem ht
  have had := specActiveDaysScore_mem ha
  have hpr := specProtocolScore_mem hp
  have hvo := specVolumeScore_mem hv
  have hre := specRecencyScore_mem r
  have hw0 : 0 ≤ specFinalScore t a p v r := by
    unfold specFinalScore; nlinarith [htx.1, had.1, hpr.1, hvo.1, hre.1]
  have hw1 : specFinalScore t a p v r ≤ 1 := by
    unfold specFinalScore; nlinarith [htx.2, had.2, hpr.2, hvo.2, hre.2]
  have hb := round3_mem hw0 hw1
  exact ⟨by rw [he]; rfl, by rw [he]; exact hb.1, by rw [he]; exact hb.2⟩

/-- Witness for C4 (amended): evaluated at all-zero stats with
recencyDays 90. -/
theorem scoreBreakdown_invariant_amended_witness :
    (0 : ℝ) ≤ 0 ∧
      0 ≤ (computeScores 0 0 0 0 90).finalScore ∧
      (computeScores 0 0 0 0 90).finalScore ≤ 1 :=
  ⟨le_refl 0,
    (scoreBreakdown_invariant_amended 0 0 0 0 90 le_rfl le_rfl le_rfl le_rfl).2.1,
    (scoreBreakdown_invariant_amended 0 0 0 0 90 le_rfl le_rfl le_rfl le_rfl).2.2⟩

/-- C2: mapScoreToRewards returns 0 when score <= 0; on each consecutive
control-point pair (p1, p2) with p1.score <= score <= p2.score it returns
round(POOL_SIZE * (p1.pct + t * (p2.pct - p1.pct))) with
t = (score - p1.score) / (p2.score - p1.score); for score > 1 it falls
back to round(POOL_SIZE * 0.0000120) = 12000; and in particular
mapScoreToRewards 0 = 0, mapScoreToRewards 0.5 = 1500,
mapScoreToRewards 1 = 12000. -/
theorem mapScoreToRewards_correct (s : ℝ) :
    (s ≤ 0 → mapScoreToRewards s = 0) ∧
    (0 < s → s ≤ 0.25 →
      mapScoreToRewards s =
        round (POOL_SIZE * (0 + (s - 0) / (0.25 - 0) * (0.0000002 - 0)))) ∧
    (0.25 < s → s ≤ 0.5 →
      mapScoreToRewards s =
        round (POOL_SIZE * (0.0000002 + (s - 0.25) / (0.5 - 0.25) * (0.0000015 - 0.0000002)))) ∧
    (0.5 < s → s ≤ 0.75 →
      mapScoreToRewards s =
        round (POOL_SIZE * (0.0000015 + (s - 0.5) / (0.75 - 0.5) * (0.0000045 - 0.0000015)))) ∧
    (0.75 < s → s ≤ 1 →
      mapScoreToRewards s =
        round (POOL_SIZE * (0.0000045 + (s - 0.75) / (1 - 0.75) * (0.0000120 - 0.0000045)))) ∧
    (1 < s → mapScoreToRewards s = round (POOL_SIZE * 0.0000120) ∧
      round (POOL_SIZE * 0.0000120) = 12000) ∧
    mapScoreToRewards 0 = 0 ∧
    mapScoreToRewards 0.5 = 1500 ∧
    mapScoreToRewards 1 = 12000 := by
  refine ⟨?_, ?_, ?_, ?_, ?_, ?_, ?_, ?_, ?_⟩
  · intro h
    rw [mapScoreToRewards_eq, if_pos h]
  · intro ha hb
    rw [mapScoreToRewards_eq, if_neg (by linarith), if_pos hb]
    congr 1
    norm_num [POOL_SIZE]
    ring
  · intro ha hb
    rw [mapScoreToRewards_eq, if_neg (by linarith), if_neg (by linarith), if_pos hb]
    congr 1
    norm_num [POOL_SIZE]
    ring
  · intro ha hb
    rw [mapScoreToRewards_eq, if_neg (by linarith), if_neg (by linarith),
      if_neg (by linarith), if_pos hb]
    congr 1
    norm_num [POOL_SIZE]
    ring
  · intro ha hb
    rw [mapScoreToRewards_eq, if_neg (by linarith), if_neg (by linarith),
      if_neg (by linarith), if_neg (by linarith), if_pos hb]
    congr 1
    norm_num [POOL_SIZE]
    ring
  · intro ha
    constructor
    · rw [mapScoreToRewards_eq, if_neg (by linarith), if_neg (by linarith),
        if_neg (by linarith), if_neg (by linarith), if_neg (by linarith)]
      rw [POOL_SIZE]
      exact (round_eq_int 12000 (by norm_num) (by norm_num)).symm
    · rw [POOL_SIZE]
      exact round_eq_int 12000 (by norm_num) (by norm_num)
  · rw [mapScoreToRewards_eq]
    norm_num
  · rw [mapScoreToRewards_eq]
    norm_num
  · rw [mapScoreToRewards_eq]
    norm_num

/-- Witness for C2: the interpolation branch evaluated at score 0.6. -/
theorem mapScoreToRewards_correct_witness :
    (0.5 : ℝ) < 0.6 ∧ (0.6 : ℝ) ≤ 0.75 ∧
      mapScoreToRewards 0.6 =
        round (POOL_SIZE * (0.0000015 + ((0.6 : ℝ) - 0.5) / (0.75 - 0.5) * (0.0000045 - 0.0000015))) :=
  ⟨by norm_num, by norm_num,
    (mapScoreToRewards_correct 0.6).2.2.2.1 (by norm_num) (by norm_num)⟩

/-- C3: mapScoreToRewards is monotone non-decreasing on [0, 1] and its
result is a non-negative integer. -/
theorem mapScoreToRewards_monotone :
    (∀ s1 s2 : ℝ, 0 ≤ s1 → s1 < s2 → s2 ≤ 1 →
      mapScoreToRewards s1 ≤ mapScoreToRewards s2) ∧
    (∀ s : ℝ, 0 ≤ mapScoreToRewards s) := by
  constructor
  · intro s1 s2 _ h12 _
    rw [mapScoreToRewards_eq_round_curve, mapScoreToRewards_eq_round_curve]
    exact round_mono_le (rewardCurveReal_mono h12.le)
  · intro s
    rw [mapScoreToRewards_eq_round_curve]
    exact round_nonneg_of (rewardCurveReal_nonneg s)

/-- Witness for C3: monotonicity applied at 0.25 < 0.75. -/
theorem mapScoreToRewards_monotone_witness :
    (0 : ℝ) ≤ 0.25 ∧ (0.25 : ℝ) < 0.75 ∧ (0.75 : ℝ) ≤ 1 ∧
      mapScoreToRewards 0.25 ≤ mapScoreToRewards 0.75 :=
  ⟨by norm_num, by norm_num, by norm_num,
    mapScoreToRewards_monotone.1 0.25 0.75 (by norm_num) (by norm_num) (by norm_num)⟩

/-- C5: deriveStats computes volumeUSD = round(txCount * baseOpValue *
wealthMultiplier) from the raw transaction count, with baseOpValue 15
for txCount < 50 and 41.5 otherwise, wealthMultiplier 12 when
balance > 5.0, else 2.5 when balance > 0.5, else 1 (the 5.0 tier
supersedes the 0.5 tier), and volumeMethod the label of the last tier
matched; deriveStats 1000 6.0 yields the Whale label and volumeUSD
498000, and a zero transaction count always yields volumeUSD 0. -/
theorem deriveStats_volume_correct (t b : ℝ) :
    (deriveStats t b).volumeUSD =
      round (t * (if t < 50 then (15 : ℝ) else 41.5) *
        (if 5.0 < b then (12 : ℝ) else if 0.5 < b then 2.5 else 1)) ∧
    (deriveStats t b).volumeMethod =
      (if 5.0 < b then "Whale (~$500/tx)"
       else if 0.5 < b then "Active (~$100/tx)"
       else if 50 ≤ t then "Regular (~$42/tx)"
       else "Casual (~$15/op)") ∧
    (deriveStats 1000 6.0).volumeMethod = "Whale (~$500/tx)" ∧
    (deriveStats 1000 6.0).volumeUSD = 498000 ∧
    ∀ b2 : ℝ, (deriveStats 0 b2).volumeUSD = 0 := by
  refine ⟨?_, deriveStats_volumeMethod t b, ?_, ?_, ?_⟩
  · rw [deriveStats_volumeUSD]
    have hbase : (if 50 ≤ t then (41.5 : ℝ) else 15) = (if t < 50 then (15 : ℝ) else 41.5) := by
      split_ifs with h1 h2
      · linarith
      · rfl
      · rfl
      · linarith
    rw [hbase]
  · rw [deriveStats_volumeMethod]
    norm_num
  · rw [deriveStats_volumeUSD]
    norm_num
  · intro b2
    rw [deriveStats_volumeUSD]
    rw [zero_mul, zero_mul, round_zero]

/-- C6: deriveStats computes activeDays as 0 for txCount 0 and
round(560 * (1 - e^(-txCount * 0.0012))) otherwise; activeDays is
non-decreasing in the transaction count and always lies in [0, 560]. -/
theorem deriveStats_activeDays_correct :
    (∀ (t : ℕ) (b : ℝ), (deriveStats (t : ℝ) b).activeDays =
      (if t = 0 then 0 else round ((560 : ℝ) * (1 - Real.exp (-(t : ℝ) * 0.0012))))) ∧
    (∀ (t1 t2 : ℕ) (b1 b2 : ℝ), t1 ≤ t2 →
      (deriveStats (t1 : ℝ) b1).activeDays ≤ (deriveStats (t2 : ℝ) b2).activeDays) ∧
    (∀ (t : ℕ) (b : ℝ), 0 ≤ (deriveStats (t : ℝ) b).activeDays ∧
      (deriveStats (t : ℝ) b).activeDays ≤ 560) := by
  have hzero : ∀ (t : ℕ) (b : ℝ), (deriveStats (t : ℝ) b).activeDays =
      (if t = 0 then 0 else round ((560 : ℝ) * (1 - Real.exp (-(t : ℝ) * 0.0012)))) := by
    intro t b
    rw [deriveStats_activeDays]
    by_cases ht : t = 0
    · subst ht
      norm_num
    · rw [if_neg ht, if_pos (by exact_mod_cast Nat.pos_of_ne_zero ht)]
  have hnn : ∀ (t : ℕ) (b : ℝ), 0 ≤ (deriveStats (t : ℝ) b).activeDays := by
    intro t b
    rw [hzero t b]
    by_cases ht : t = 0
    · rw [if_pos ht]
    · rw [if_neg ht]
      exact round_nonneg_of (activeDaysReal_nonneg (by positivity))
  refine ⟨hzero, ?_, ?_⟩
  · intro t1 t2 b1 b2 h12
    by_cases ht1 : t1 = 0
    · rw [hzero t1 b1, if_pos ht1]
      exact hnn t2 b2
    · have ht2 : t2 ≠ 0 := by
        intro h
        exact ht1 (Nat.le_zero.mp (h ▸ h12))
      rw [hzero t1 b1, if_neg ht1, hzero t2 b2, if_neg ht2]
      exact round_mono_le (activeDaysReal_mono (by exact_mod_cast h12))
  · intro t b
    refine ⟨hnn t b, ?_⟩
    rw [hzero t b]
    by_cases ht : t = 0
    · rw [if_pos ht]
      norm_num
    · rw [if_neg ht]
      have h560 : round ((560 : ℝ)) = 560 := round_eq_int 560 (by norm_num) (by norm_num)
      have := round_mono_le (activeDaysReal_le (t : ℝ))
      rwa [h560] at this

/-- Witness for C6: monotonicity applied at txCount 1 <= 2. -/
theorem deriveStats_activeDays_correct_witness :
    (1 : ℕ) ≤ 2 ∧
      (deriveStats ((1 : ℕ) : ℝ) 0).activeDays ≤ (deriveStats ((2 : ℕ) : ℝ) 0).activeDays :=
  ⟨by norm_num, deriveStats_activeDays_correct.2.1 1 2 0 0 (by norm_num)⟩

/-- C7 counterexample: at txCount 1200, balance 0.2, the code computes
activeDays = round(560 * (1 - e^(-1.44))) = 427, not the approximately
431 documented by the tuning comment and asserted by the claim. -/
theorem deriveStats_tuning_counterexample : (deriveStats 1200 0.2).activeDays ≠ 431 := by
  rw [deriveStats_activeDays, if_pos (by norm_num : (0 : ℝ) < 1200), round_activedays_1200]
  decide

/-- C7 (amended): for txCount 1200, balance 0.2, deriveStats yields
activeDays = round(560 * (1 - e^(-1200 * 0.0012))) = 427 and
volumeUSD = round(1200 * 41.5 * 1) = 49800. -/
theorem deriveStats_tuning_amended :
    (deriveStats 1200 0.2).activeDays =
      round ((560 : ℝ) * (1 - Real.exp (-1200 * 0.0012))) ∧
    (deriveStats 1200 0.2).activeDays = 427 ∧
    (deriveStats 1200 0.2).volumeUSD = round ((1200 : ℝ) * 41.5 * 1) ∧
    (deriveStats 1200 0.2).volumeUSD = 49800 := by
  have hact : (deriveStats 1200 0.2).activeDays =
      round ((560 : ℝ) * (1 - Real.exp (-1200 * 0.0012))) := by
    rw [deriveStats_activeDays, if_pos (by norm_num : (0 : ℝ) < 1200)]
  have hvol : (deriveStats 1200 0.2).volumeUSD = round ((1200 : ℝ) * 41.5 * 1) := by
    rw [deriveStats_volumeUSD]
    norm_num
  refine ⟨hact, ?_, hvol, ?_⟩
  · rw [hact, round_activedays_1200]
  · rw [hvol]
    norm_num

/-- C10: a wallet with exactly one transaction has
meaningfulTxCount = floor(0.8) = 0, hence the zero-meaningful-activity
defaults protocols = 0 and recencyDays = 90, even though the raw count
is positive and activeDays is positive. -/
theorem deriveStats_single_tx_defaults (b : ℝ) (hb : 0 ≤ b) :
    meaningfulTxCount 1 = 0 ∧
    (deriveStats 1 b).protocols = 0 ∧
    (deriveStats 1 b).recencyDays = 90 ∧
    0 < (deriveStats 1 b).activeDays := by
  have hm : meaningfulTxCount 1 = 0 := by
    unfold meaningfulTxCount
    rw [Int.floor_eq_iff] <;> norm_num
  refine ⟨hm, ?_, ?_, ?_⟩
  · rw [deriveStats_protocols, if_pos hm]
  · rw [deriveStats_recencyDays, if_pos hm]
  · rw [deriveStats_activeDays, if_pos (by norm_num : (0 : ℝ) < 1)]
    have hE : (1.0012 : ℝ) ≤ Real.exp 0.0012 := by
      have := Real.add_one_le_exp (0.0012 : ℝ)
      linarith
    have hneg : Real.exp ((-1 : ℝ) * 0.0012) = (Real.exp 0.0012)⁻¹ := by
      rw [show ((-1 : ℝ) * 0.0012) = -(0.0012 : ℝ) by norm_num, Real.exp_neg]
    have hz : (Real.exp 0.0012)⁻¹ ≤ 1 / 1.0012 := by
      rw [div_eq_mul_inv, one_mul]
      exact inv_anti₀ (by norm_num) hE
    have harg : (0.5 : ℝ) ≤ (560 : ℝ) * (1 - Real.exp (-1 * 0.0012)) := by
      rw [hneg]
      nlinarith
    rw [round_eq]
    have hfl : (1 : ℤ) ≤ ⌊(560 : ℝ) * (1 - Real.exp (-1 * 0.0012)) + 1 / 2⌋ := by
      apply Int.le_floor.mpr
      push_cast
      linarith
    linarith

/-- Witness for C10: the defaults at balance 0. -/
theorem deriveStats_single_tx_defaults_witness :
    (0 : ℝ) ≤ 0 ∧
      ((deriveStats 1 0).protocols = 0 ∧ (deriveStats 1 0).recencyDays = 90 ∧
        0 < (deriveStats 1 0).activeDays) :=
  ⟨le_refl 0,
    (deriveStats_single_tx_defaults 0 le_rfl).2.1,
    (deriveStats_single_tx_defaults 0 le_rfl).2.2.1,
    (deriveStats_single_tx_defaults 0 le_rfl).2.2.2⟩

/-- C8: when the on-chain fetch fails, the orchestrator substitutes
balance 0 and txCount 0 and runs exactly the same pipeline as for a
successful fetch of those values; the score breakdown and the reward
are still produced from the zero-activity stats. -/
theorem getRewardEstimate_fetch_failure (n : NarrativeOutcome) :
    getRewardEstimate none n = getRewardEstimate (some { balance := 0, txCount := 0 }) n ∧
    (getRewardEstimate none n).scoreBreakdown =
      computeScores 0 ((deriveStats 0 0).activeDays : ℝ) ((deriveStats 0 0).protocols : ℝ)
        ((deriveStats 0 0).volumeUSD : ℝ) ((deriveStats 0 0).recencyDays : ℝ) ∧
    (getRewardEstimate none n).estimatedRewards =
      mapScoreToRewards (getRewardEstimate none n).scoreBreakdown.finalScore := by
  cases n <;> exact ⟨rfl, rfl, rfl⟩

/-- C9: when the narrative collaborator returns no text or throws, the
orchestrator still returns a complete EstimationResult whose numeric
fields (activityScore, estimatedRewards, stats, scoreBreakdown) are
identical to the successful-narrative result, with a fixed fallback
explanation and a fixed list of exactly 3 suggestions for each failure
mode. -/
theorem getRewardEstimate_narrative_fallback (f : Option RawActivity)
    (e : String) (sg : List String) :
    ((getRewardEstimate f .emptyText).activityScore =
        (getRewardEstimate f (.ok e sg)).activityScore ∧
      (getRewardEstimate f .emptyText).estimatedRewards =
        (getRewardEstimate f (.ok e sg)).estimatedRewards ∧
      (getRewardEstimate f .emptyText).stats = (getRewardEstimate f (.ok e sg)).stats ∧
      (getRewardEstimate f .emptyText).scoreBreakdown =
        (getRewardEstimate f (.ok e sg)).scoreBreakdown ∧
      (getRewardEstimate f .emptyText).explanation =
        "Analysis complete based on your on-chain activity pattern." ∧
      (getRewardEstimate f .emptyText).suggestions =
        ["Maintain weekly activity", "Try Aerodrome or Moonwell",
          "Increase transaction volume"] ∧
      (getRewardEstimate f .emptyText).suggestions.length = 3) ∧
    ((getRewardEstimate f .threw).activityScore =
        (getRewardEstimate f (.ok e sg)).activityScore ∧
      (getRewardEstimate f .threw).estimatedRewards =
        (getRewardEstimate f (.ok e sg)).estimatedRewards ∧
      (getRewardEstimate f .threw).stats = (getRewardEstimate f (.ok e sg)).stats ∧
      (getRewardEstimate f .threw).scoreBreakdown =
        (getRewardEstimate f (.ok e sg)).scoreBreakdown ∧
      (getRewardEstimate f .threw).explanation =
        "We calculated your score based on your wallet activity pattern." ∧
      (getRewardEstimate f .threw).suggestions =
        ["Interact with more protocols", "Increase transaction volume",
          "Maintain monthly activity"] ∧
      (getRewardEstimate f .threw).suggestions.length = 3) :=
  ⟨⟨rfl, rfl, rfl, rfl, rfl, rfl, rfl⟩, ⟨rfl, rfl, rfl, rfl, rfl, rfl, rfl⟩⟩

end
